import Mathlib

/-!
Verification of the safe-SQL-construction and session layer of the
`mysql-mcp` server (the `MySqlApi` class in `src/api.ts`, bundled here as
`src/unnamed/part_000`, and the argument validators in
`src/validators/records.ts`, bundled as `src/unnamed/part_001`).

JavaScript objects whose values are untrusted JSON are embedded as
association lists `List (String × JVal)` in insertion order, which is the
iteration order of `Object.entries` for the string keys that can pass
identifier validation.  Fallible TypeScript code (functions that `throw`)
is embedded in `Except MySqlError`.  Calls against the live MySQL server
are embedded against a server model carried by the `Pool` value (catalog
tables, a clock); connection establishment, the scoped `USE` statement and
raw-statement execution, which can fail at the driver level, take their
outcome as an explicit `Except` argument.
-/

/-- Untrusted JSON-ish values flowing through tool arguments and into bound
SQL parameters (the TypeScript `unknown`).  `jnull` is JavaScript `null`. -/
inductive JVal where
  | jnull
  | jbool (b : Bool)
  | jint (n : Int)
  | jstr (s : String)
  | jarr (elems : List JVal)
  | jobj (fields : List (String × JVal))

/-- `value === null` from `buildWhereClause`. -/
def JVal.isNull : JVal → Bool
  | .jnull => true
  | _ => false

/-- The error classes of `src/errors.ts` as they are used by the code under
`src/`: `ValidationError`, `AuthError`, `ApiError`, plus `driverError` for
failures propagated verbatim from the mysql2 driver. -/
inductive MySqlError where
  | validationError (message : String)
  | authError (message : String)
  | apiError (message : String)
  | driverError (message : String)
deriving DecidableEq

/-- `[A-Za-z_]`, the first character class of the identifier regex
`/^[A-Za-z_][A-Za-z0-9_]*$/` in `MySqlApi.assertIdentifier`. -/
def isIdentStart (c : Char) : Bool :=
  (65 ≤ c.toNat && c.toNat ≤ 90) || (97 ≤ c.toNat && c.toNat ≤ 122) || c.toNat == 95

/-- `[A-Za-z0-9_]`, the repeated character class of the identifier regex. -/
def isIdentCont (c : Char) : Bool :=
  isIdentStart c || (48 ≤ c.toNat && c.toNat ≤ 57)

/-- Full-string match of `/^[A-Za-z_][A-Za-z0-9_]*$/`. -/
def matchesIdentifierPattern (s : String) : Bool :=
  match s.data with
  | [] => false
  | c :: cs => isIdentStart c && cs.all isIdentCont

/-- The message thrown by `MySqlApi.assertIdentifier` for field `field`. -/
def invalidIdentifierMessage (field : String) : String :=
  "Invalid parameter: " ++ field ++ " must contain only letters, numbers, and underscore"

/-- `MySqlApi.assertIdentifier` (part_000 lines 38-46). -/
def assertIdentifier (value field : String) : Except MySqlError String :=
  if matchesIdentifierPattern value then .ok value
  else .error (.validationError (invalidIdentifierMessage field))

/-- `MySqlApi.escapeIdentifier` (part_000 lines 48-50). -/
def escapeIdentifier (value field : String) : Except MySqlError String :=
  (assertIdentifier value field).map (fun v => "`" ++ v ++ "`")

/-- The loop body of `MySqlApi.buildWhereClause` (part_000 lines 81-92):
walks the entries in iteration order, validating and quoting each key,
rendering `IS NULL` for null values and `= ?` plus a bound value
otherwise. -/
def buildWhereParts : List (String × JVal) → Except MySqlError (List String × List JVal)
  | [] => .ok ([], [])
  | (key, value) :: rest => do
    let escapedKey ← escapeIdentifier key ("where." ++ key)
    let (parts, values) ← buildWhereParts rest
    match value with
    | .jnull => .ok ((escapedKey ++ " IS NULL") :: parts, values)
    | v => .ok ((escapedKey ++ " = ?") :: parts, v :: values)

/-- `MySqlApi.buildWhereClause` (part_000 lines 76-98).  `none` is the
JavaScript `undefined` argument. -/
def buildWhereClause (whereArg : Option (List (String × JVal))) :
    Except MySqlError (String × List JVal) :=
  match whereArg with
  | none => .ok ("", [])
  | some w =>
    if w.length = 0 then .ok ("", [])
    else do
      let (parts, values) ← buildWhereParts w
      .ok (" WHERE " ++ String.intercalate " AND " parts, values)

example : buildWhereClause (some [("a", .jint 1), ("b", .jnull)]) =
    .ok (" WHERE `a` = ? AND `b` IS NULL", [.jint 1]) := by rfl

/-- Fuel-indexed worker for JavaScript `String.prototype.split(/\s+/)`:
pieces are separated by maximal runs of whitespace; a leading or trailing
run contributes an empty piece.  The fuel is only a structural-recursion
bound; `splitWs` always supplies enough. -/
def splitWsGo : Nat → List Char → List Char → List String
  | _, [], acc => [String.mk acc.reverse]
  | 0, cs, acc => [String.mk (acc.reverse ++ cs)]
  | fuel + 1, c :: cs, acc =>
    if c.isWhitespace then
      String.mk acc.reverse :: splitWsGo fuel (cs.dropWhile Char.isWhitespace) []
    else
      splitWsGo fuel cs (c :: acc)

/-- JavaScript `s.split(/\s+/)` as used on `orderBy` strings. -/
def splitWs (s : String) : List String :=
  splitWsGo s.data.length s.data []

example : splitWs "col DESC" = ["col", "DESC"] := by rfl
example : splitWs "col  ASC extra" = ["col", "ASC", "extra"] := by rfl
example : splitWs " col" = ["", "col"] := by rfl
example : splitWs "" = [""] := by rfl

/-- JavaScript `String.prototype.toUpperCase()` on the ASCII strings that
occur here (direction tokens): uppercase each character. -/
def jsToUpperCase (s : String) : String :=
  String.mk (s.data.map Char.toUpper)

/-- The validation message used by the orderBy validator (its text is fixed
by the repository's server tests, which match `/orderBy must be in format/`). -/
def orderByFormatMessage : String :=
  "Invalid parameter: orderBy must be in format column [ASC|DESC]"

/-- Modelled from the spec: `parseOrderBy` lives in
`src/validators/collections.ts`, which is not included under `src/`.  Per
spec section 4.2 (`buildOrderBy`) it accepts `"column"` or
`"column DIRECTION"` with DIRECTION case-insensitive ASC/DESC, splits on
whitespace, and fails with a Validation error if there are more than two
tokens, if the direction token is present but not ASC/DESC, or if the
column fails identifier validation; the validated expression is returned
for `MySqlApi.selectRows` to render. -/
def parseOrderBy (raw : String) : Except MySqlError String :=
  match splitWs raw with
  | [column] =>
    if matchesIdentifierPattern column then .ok raw
    else .error (.validationError orderByFormatMessage)
  | [column, direction] =>
    if matchesIdentifierPattern column &&
        (jsToUpperCase direction == "ASC" || jsToUpperCase direction == "DESC") then .ok raw
    else .error (.validationError orderByFormatMessage)
  | _ => .error (.validationError orderByFormatMessage)

/-- The orderBy rendering of `MySqlApi.selectRows` (part_000 lines
278-285): `if (args.orderBy)` skips empty strings (JavaScript truthiness);
otherwise the string is split on whitespace, the first token is validated
and quoted, and a present, non-empty second token is uppercased and
appended verbatim. -/
def buildOrderBySqlFragment (orderBy : Option String) : Except MySqlError String :=
  match orderBy with
  | none => .ok ""
  | some ob =>
    if ob = "" then .ok ""
    else
      let tokens := splitWs ob
      let column := tokens.headD ""
      let direction := tokens[1]?
      do
        let escapedColumn ← escapeIdentifier column "orderBy"
        match direction with
        | some d =>
          if d = "" then .ok (" ORDER BY " ++ escapedColumn)
          else .ok (" ORDER BY " ++ escapedColumn ++ " " ++ jsToUpperCase d)
        | none => .ok (" ORDER BY " ++ escapedColumn)

example : buildOrderBySqlFragment (some "col desc") = .ok " ORDER BY `col` DESC" := by rfl
example : parseOrderBy "col DOWN" = .error (.validationError orderByFormatMessage) := by rfl

/-- Property access `args.key` on the untyped argument object: `none` is
JavaScript `undefined` (absent key). -/
def lookupArg (args : List (String × JVal)) (key : String) : Option JVal :=
  (args.find? (fun kv => kv.1 = key)).map (fun kv => kv.2)

/-- Modelled from the spec: `requireString` lives in
`src/validators/common.ts`, not included under `src/`.  Per spec section
4.3 it confirms the required field is present and a string, failing with a
Validation error naming the field (messages fixed by the server tests:
`Missing required parameter: ...`). -/
def requireString (v : Option JVal) (parameter : String) : Except MySqlError String :=
  match v with
  | none => .error (.validationError ("Missing required parameter: " ++ parameter))
  | some (.jstr s) => .ok s
  | some _ => .error (.validationError ("Invalid parameter: " ++ parameter ++ " must be a string"))

/-- Modelled from the spec: `optionalString` from `src/validators/common.ts`
(not under `src/`); an absent field is allowed, a present one must be a
string. -/
def optionalString (v : Option JVal) (parameter : String) :
    Except MySqlError (Option String) :=
  match v with
  | none => .ok none
  | some (.jstr s) => .ok (some s)
  | some _ => .error (.validationError ("Invalid parameter: " ++ parameter ++ " must be a string"))

/-- Modelled from the spec: `optionalInteger` from `src/validators/common.ts`
(not under `src/`); an absent field is allowed, a present one must be an
integer. -/
def optionalInteger (v : Option JVal) (parameter : String) :
    Except MySqlError (Option Int) :=
  match v with
  | none => .ok none
  | some (.jint n) => .ok (some n)
  | some _ => .error (.validationError ("Invalid parameter: " ++ parameter ++ " must be an integer"))

/-- Modelled from the spec: `requireObject` from `src/validators/common.ts`
(not under `src/`); the field must be present and a plain object (message
fixed by the server tests: `Invalid parameter: data must be an object`). -/
def requireObject (v : Option JVal) (parameter : String) :
    Except MySqlError (List (String × JVal)) :=
  match v with
  | none => .error (.validationError ("Missing required parameter: " ++ parameter))
  | some (.jobj fields) => .ok fields
  | some _ => .error (.validationError ("Invalid parameter: " ++ parameter ++ " must be an object"))

/-- Modelled from the spec: `assertStringArray` from
`src/validators/common.ts` (not under `src/`); the value must be an array
whose elements are all strings. -/
def assertStringArray (v : JVal) (parameter : String) : Except MySqlError (List String) :=
  match v with
  | .jarr elems =>
    elems.mapM (fun e =>
      match e with
      | .jstr s => Except.ok s
      | _ => Except.error
          (MySqlError.validationError
            ("Invalid parameter: " ++ parameter ++ " must be an array of strings")))
  | _ => .error (.validationError ("Invalid parameter: " ++ parameter ++ " must be an array"))

/-- `parseWhere` (part_001 lines 19-30): absent is allowed; a present value
must be an object and must not be empty. -/
def parseWhere (value : Option JVal) (parameter : String) :
    Except MySqlError (Option (List (String × JVal))) :=
  match value with
  | none => .ok none
  | some v => do
    let w ← requireObject (some v) parameter
    if w.length = 0 then
      .error (.validationError
        ("Invalid parameter: " ++ parameter ++ " cannot be an empty object"))
    else .ok (some w)

/-- `SelectRowsArgs` from `src/types.ts`. -/
structure SelectRowsArgs where
  table : String
  database : Option String := none
  columns : Option (List String) := none
  whereArg : Option (List (String × JVal)) := none
  orderBy : Option String := none
  limit : Option Int := none
  offset : Option Int := none

/-- `InsertRowArgs` from `src/types.ts`. -/
structure InsertRowArgs where
  table : String
  database : Option String := none
  data : List (String × JVal)

/-- `UpdateRowsArgs` from `src/types.ts` (`whereArg` is the `where` field). -/
structure UpdateRowsArgs where
  table : String
  database : Option String := none
  data : List (String × JVal)
  whereArg : List (String × JVal)

/-- `DeleteRowsArgs` from `src/types.ts`. -/
structure DeleteRowsArgs where
  table : String
  database : Option String := none
  whereArg : List (String × JVal)

/-- `parseSelectRowsArgs` (part_001 lines 32-74), in the source's
evaluation order: table, database, columns, where, orderBy, limit
(rejecting values below 1), offset (rejecting negative values). -/
def parseSelectRowsArgs (args : List (String × JVal)) : Except MySqlError SelectRowsArgs := do
  let table ← requireString (lookupArg args "table") "table"
  let database ← optionalString (lookupArg args "database") "database"
  let columns ← match lookupArg args "columns" with
    | none => pure none
    | some v => (assertStringArray v "columns").map some
  let whereArg ← parseWhere (lookupArg args "where") "where"
  let orderByRaw ← optionalString (lookupArg args "orderBy") "orderBy"
  let orderBy ← match orderByRaw with
    | none => pure none
    | some ob => (parseOrderBy ob).map some
  let limitRaw ← optionalInteger (lookupArg args "limit") "limit"
  let limit ← match limitRaw with
    | none => pure none
    | some n =>
      if n < 1 then
        Except.error (MySqlError.validationError
          "Invalid parameter: limit must be greater than 0")
      else pure (some n)
  let offsetRaw ← optionalInteger (lookupArg args "offset") "offset"
  let offset ← match offsetRaw with
    | none => pure none
    | some n =>
      if n < 0 then
        Except.error (MySqlError.validationError
          "Invalid parameter: offset must be 0 or greater")
      else pure (some n)
  .ok { table, database, columns, whereArg, orderBy, limit, offset }

/-- `parseInsertRowArgs` (part_001 lines 76-82). -/
def parseInsertRowArgs (args : List (String × JVal)) : Except MySqlError InsertRowArgs := do
  let table ← requireString (lookupArg args "table") "table"
  let database ← optionalString (lookupArg args "database") "database"
  let data ← requireObject (lookupArg args "data") "data"
  .ok { table, database, data }

/-- `parseUpdateRowsArgs` (part_001 lines 84-96): the `where` object is
parsed and checked non-empty before the remaining fields are read. -/
def parseUpdateRowsArgs (args : List (String × JVal)) : Except MySqlError UpdateRowsArgs := do
  let whereArg ← requireObject (lookupArg args "where") "where"
  if whereArg.length = 0 then
    .error (.validationError "Invalid parameter: where cannot be an empty object")
  else do
    let table ← requireString (lookupArg args "table") "table"
    let database ← optionalString (lookupArg args "database") "database"
    let data ← requireObject (lookupArg args "data") "data"
    .ok { table, database, data, whereArg }

/-- `parseDeleteRowsArgs` (part_001 lines 98-109). -/
def parseDeleteRowsArgs (args : List (String × JVal)) : Except MySqlError DeleteRowsArgs := do
  let whereArg ← requireObject (lookupArg args "where") "where"
  if whereArg.length = 0 then
    .error (.validationError "Invalid parameter: where cannot be an empty object")
  else do
    let table ← requireString (lookupArg args "table") "table"
    let database ← optionalString (lookupArg args "database") "database"
    .ok { table, database, whereArg }

/-- A row of the server's `information_schema.tables` catalog. -/
structure TableRow where
  schema : String
  name : String
  tableType : String

/-- A row of the server's `information_schema.columns` catalog. -/
structure ColumnRow where
  schema : String
  tableName : String
  columnName : String
  dataType : String
  isNullable : String
  columnKey : String
  defaultValue : JVal
  extra : String

/-- The connection pool together with the model of the MySQL server it is
connected to: the schema catalog (`SHOW DATABASES` /
`information_schema.schemata`), the table and column catalogs, and the
server clock (`SELECT NOW()`).  Catalog queries on an established pool are
total in this model; only connection establishment and raw
`execute_sql` statements take failure oracles. -/
structure Pool where
  schemata : List String
  tables : List TableRow
  columns : List ColumnRow
  now : String

/-- The `AuthSession` interface of part_000 lines 18-24. -/
structure AuthSession where
  host : String
  port : Nat
  user : String
  database : Option String
  ssl : Bool

/-- The two private fields of the `MySqlApi` class: `pool` and `session`,
both nullable. -/
structure ApiState where
  pool : Option Pool
  session : Option AuthSession

/-- The message of the `AuthError` thrown by `ensureAuthenticated` and by
the session check inside `useDatabase`. -/
def notAuthenticatedMessage : String := "Not authenticated. Call auth_mysql first."

/-- `MySqlApi.ensureAuthenticated` (part_000 lines 30-36). -/
def ensureAuthenticated (st : ApiState) : Except MySqlError Pool :=
  match st.pool with
  | none => .error (.authError notAuthenticatedMessage)
  | some pool => .ok pool

/-- The shared "no database selected" `ValidationError` message. -/
def noDatabaseSelectedMessage : String :=
  "No database selected. Call use_database, pass database parameter, or authenticate with a default database."

/-- `MySqlApi.escapeTableReference` (part_000 lines 52-63): validates and
quotes the table, resolves the database as explicit argument else the
session's default, and validates and quotes it. -/
def escapeTableReference (st : ApiState) (table : String) (database : Option String) :
    Except MySqlError String := do
  let escapedTable ← escapeIdentifier table "table"
  let resolvedDatabase :=
    match database with
    | some db => some db
    | none => st.session.bind (fun s => s.database)
  match resolvedDatabase with
  | none => .error (.validationError noDatabaseSelectedMessage)
  | some db => do
    let escapedDatabase ← escapeIdentifier db "database"
    .ok (escapedDatabase ++ "." ++ escapedTable)

/-- `MySqlApi.resolveDatabase` (part_000 lines 65-74). -/
def resolveDatabase (st : ApiState) (database : Option String) : Except MySqlError String :=
  match (match database with
         | some db => some db
         | none => st.session.bind (fun s => s.database)) with
  | none => .error (.validationError noDatabaseSelectedMessage)
  | some db => assertIdentifier db "database"

/-- `MySqlAuthArgs` from `src/types.ts`. -/
structure MySqlAuthArgs where
  host : String
  port : Option Nat := none
  user : String
  password : String
  database : Option String := none
  ssl : Option Bool := none

/-- The summary object returned by a successful `authMySql`. -/
structure AuthSummary where
  authenticated : Bool
  host : String
  port : Nat
  user : String
  database : Option String
  ssl : Bool

/-- `MySqlApi.authMySql` (part_000 lines 100-150).  `connect` is the
combined outcome of `createPool` plus the `SELECT 1` liveness probe.  An
existing pool is always ended first; on probe failure both fields are
cleared and an `AuthError` carrying the driver message is thrown; on
success the new pool and session are installed (`options.host || args.host`
collapses to `args.host`, and `options.port || 3306` maps a falsy port 0
back to 3306). -/
def authMySql (_st : ApiState) (args : MySqlAuthArgs) (connect : Except String Pool) :
    Except MySqlError AuthSummary × ApiState :=
  match connect with
  | .error message =>
    (.error (.authError ("MySQL authentication failed: " ++ message)),
     { pool := none, session := none })
  | .ok pool =>
    let portOption := args.port.getD 3306
    let session : AuthSession :=
      { host := args.host
        port := if portOption = 0 then 3306 else portOption
        user := args.user
        database := args.database
        ssl := args.ssl.getD false }
    (.ok { authenticated := true, host := session.host, port := session.port,
           user := session.user, database := session.database, ssl := session.ssl },
     { pool := some pool, session := some session })

/-- The result of `MySqlApi.getAuthStatus` (part_000 lines 152-157). -/
structure AuthStatus where
  authenticated : Bool
  session : Option AuthSession

/-- `MySqlApi.getAuthStatus` (part_000 lines 152-157). -/
def getAuthStatus (st : ApiState) : AuthStatus :=
  { authenticated := st.pool.isSome, session := st.session }

/-- `HealthResponse` from `src/types.ts`. -/
structure HealthResponse where
  ok : Bool
  authenticated : Bool
  message : String
  serverTime : Option String := none

/-- `MySqlApi.health` (part_000 lines 173-190): with no pool it returns a
normal (non-thrown) "Not authenticated" value; with a pool it queries
`SELECT NOW()` and reports healthy. -/
def health (st : ApiState) : Except MySqlError HealthResponse :=
  match st.pool with
  | none => .ok { ok := false, authenticated := false, message := "Not authenticated" }
  | some _ => do
    let pool ← ensureAuthenticated st
    .ok { ok := true, authenticated := true, message := "MySQL connection is healthy",
          serverTime := some pool.now }

/-- `DatabaseInfo` from `src/types.ts`. -/
structure DatabaseInfo where
  name : String

/-- `MySqlApi.listDatabases` (part_000 lines 192-201): `SHOW DATABASES`
over the server catalog. -/
def listDatabases (st : ApiState) : Except MySqlError (List DatabaseInfo) := do
  let pool ← ensureAuthenticated st
  .ok (pool.schemata.map (fun name => { name }))

/-- `TableInfo` from `src/types.ts`. -/
structure TableInfo where
  database : String
  name : String
  type : String

/-- `MySqlApi.listTables` (part_000 lines 203-222): the
`information_schema.tables` query with `TABLE_SCHEMA = ?` bound to the
resolved database (the server-side `ORDER BY TABLE_NAME` is kept as the
catalog's own order). -/
def listTables (st : ApiState) (database : Option String) :
    Except MySqlError (List TableInfo) := do
  let pool ← ensureAuthenticated st
  let targetDatabase ← resolveDatabase st database
  .ok ((pool.tables.filter (fun row => row.schema = targetDatabase)).map
    (fun row => { database := row.schema, name := row.name, type := row.tableType }))

/-- `ColumnInfo` from `src/types.ts`. -/
structure ColumnInfo where
  name : String
  dataType : String
  isNullable : Bool
  key : String
  defaultValue : JVal
  extra : String

/-- `DescribeTableArgs` from `src/types.ts`. -/
structure DescribeTableArgs where
  table : String
  database : Option String := none

/-- The result of `MySqlApi.describeTable`. -/
structure DescribeTableResult where
  table : String
  database : String
  columns : List ColumnInfo

/-- `MySqlApi.describeTable` (part_000 lines 224-265): validates the table
name, resolves the database, queries `information_schema.columns` with both
bound, and fails with an `ApiError` when no column rows come back. -/
def describeTable (st : ApiState) (args : DescribeTableArgs) :
    Except MySqlError DescribeTableResult := do
  let pool ← ensureAuthenticated st
  let table ← assertIdentifier args.table "table"
  let database ← resolveDatabase st args.database
  let rows := pool.columns.filter
    (fun row => row.schema = database && row.tableName = table)
  if rows.length = 0 then
    .error (.apiError ("Table not found: " ++ table))
  else
    .ok { table, database,
          columns := rows.map (fun row =>
            { name := row.columnName
              dataType := row.dataType
              isNullable := jsToUpperCase row.isNullable = "YES"
              key := row.columnKey
              defaultValue := row.defaultValue
              extra := row.extra }) }

/-- A parameterized SQL statement as handed to the driver: the SQL text and
the bound values, in order. -/
structure SqlQuery where
  sql : String
  values : List JVal

/-- `MySqlApi.selectRows` (part_000 lines 267-308) up to the construction
of the parameterized statement it passes to `pool.query`: auth check, table
reference, column list (`*` when absent or empty), WHERE clause, ORDER BY
fragment, then LIMIT/OFFSET where the values are appended to the bound
values after those of the WHERE clause and `offset` without `limit` is
rejected. -/
def selectRows (st : ApiState) (args : SelectRowsArgs) : Except MySqlError SqlQuery := do
  let _pool ← ensureAuthenticated st
  let tableRef ← escapeTableReference st args.table args.database
  let columns ← match args.columns with
    | none => pure "*"
    | some [] => pure "*"
    | some cols =>
      (cols.mapM (fun column => escapeIdentifier column ("columns." ++ column))).map
        (String.intercalate ", ")
  let whereClause ← buildWhereClause args.whereArg
  let orderBySql ← buildOrderBySqlFragment args.orderBy
  let limitStep : String × List JVal :=
    match args.limit with
    | some n => (" LIMIT ?", [JVal.jint n])
    | none => ("", [])
  let (limitSql, pageValues) ←
    match args.offset with
    | none => Except.ok limitStep
    | some o =>
      match args.limit with
      | none =>
        Except.error (MySqlError.validationError "Invalid parameter: offset requires limit")
      | some _ => Except.ok (limitStep.1 ++ " OFFSET ?", limitStep.2 ++ [JVal.jint o])
  .ok { sql := "SELECT " ++ columns ++ " FROM " ++ tableRef ++ whereClause.1 ++
          orderBySql ++ limitSql,
        values := whereClause.2 ++ pageValues }

/-- `MySqlApi.insertRow` (part_000 lines 310-329) up to the constructed
statement: empty `data` is rejected, keys are validated and quoted into the
column list, values become `?` placeholders. -/
def insertRow (st : ApiState) (args : InsertRowArgs) : Except MySqlError SqlQuery := do
  let _pool ← ensureAuthenticated st
  let tableRef ← escapeTableReference st args.table args.database
  if args.data.length = 0 then
    .error (.validationError "Invalid parameter: data cannot be empty")
  else do
    let columns ← args.data.mapM (fun kv => escapeIdentifier kv.1 ("data." ++ kv.1))
    let placeholders := String.intercalate ", " (args.data.map (fun _ => "?"))
    .ok { sql := "INSERT INTO " ++ tableRef ++ " (" ++ String.intercalate ", " columns ++
            ") VALUES (" ++ placeholders ++ ")",
          values := args.data.map (fun kv => kv.2) }

/-- `MySqlApi.updateRows` (part_000 lines 331-355) up to the constructed
statement: empty `data` is rejected, the WHERE clause is built and an empty
one is rejected, and the bound values are the SET values followed by the
WHERE values. -/
def updateRows (st : ApiState) (args : UpdateRowsArgs) : Except MySqlError SqlQuery := do
  let _pool ← ensureAuthenticated st
  let tableRef ← escapeTableReference st args.table args.database
  if args.data.length = 0 then
    .error (.validationError "Invalid parameter: data cannot be empty")
  else do
    let setParts ← args.data.mapM
      (fun kv => (escapeIdentifier kv.1 ("data." ++ kv.1)).map (fun k => k ++ " = ?"))
    let whereClause ← buildWhereClause (some args.whereArg)
    if whereClause.1 = "" then
      .error (.validationError "Invalid parameter: where cannot be empty for update_rows")
    else
      .ok { sql := "UPDATE " ++ tableRef ++ " SET " ++ String.intercalate ", " setParts ++
              whereClause.1,
            values := args.data.map (fun kv => kv.2) ++ whereClause.2 }

/-- `MySqlApi.deleteRows` (part_000 lines 357-371) up to the constructed
statement: the WHERE clause is built and an empty one is rejected. -/
def deleteRows (st : ApiState) (args : DeleteRowsArgs) : Except MySqlError SqlQuery := do
  let _pool ← ensureAuthenticated st
  let tableRef ← escapeTableReference st args.table args.database
  let whereClause ← buildWhereClause (some args.whereArg)
  if whereClause.1 = "" then
    .error (.validationError "Invalid parameter: where cannot be empty for delete_rows")
  else
    .ok { sql := "DELETE FROM " ++ tableRef ++ whereClause.1, values := whereClause.2 }

/-- `UseDatabaseArgs.database`, and the result of `MySqlApi.useDatabase`. -/
structure UseDatabaseResult where
  message : String
  database : String
  authenticated : Bool

/-- `MySqlApi.useDatabase` (part_000 lines 438-469): auth check, identifier
validation, a bound-parameter lookup of the name in
`information_schema.schemata`, an `ApiError` when no row comes back, and
only then the session's `database` field is replaced. -/
def useDatabase (st : ApiState) (database : String) :
    Except MySqlError UseDatabaseResult × ApiState :=
  match st.pool with
  | none => (.error (.authError notAuthenticatedMessage), st)
  | some pool =>
    match assertIdentifier database "database" with
    | .error e => (.error e, st)
    | .ok db =>
      let rows := pool.schemata.filter (fun name => name = db)
      if rows.length = 0 then
        (.error (.apiError ("Database not found: " ++ db)), st)
      else
        match st.session with
        | none => (.error (.authError notAuthenticatedMessage), st)
        | some session =>
          (.ok { message := "Default database set to " ++ db, database := db,
                 authenticated := true },
           { st with session := some { session with database := some db } })

/-- `ExecuteSqlArgs` from `src/types.ts`. -/
structure ExecuteSqlArgs where
  sql : String
  params : Option (List JVal) := none
  database : Option String := none

/-- The shape the mysql2 driver hands back for a raw statement: an array of
rows for a row-returning statement, a `ResultSetHeader` otherwise. -/
inductive DriverResult where
  | rows (items : List (List (String × JVal)))
  | header (affectedRows changedRows insertId : Nat)

/-- The outcomes of the driver calls `executeSql` makes on its dedicated
connection: the scoped `USE` statement (when a per-call database is given)
and the raw statement itself. -/
structure ExecOutcome where
  useResult : Except String Unit
  queryResult : Except String DriverResult

/-- The two result shapes of `MySqlApi.executeSql`. -/
inductive ExecuteSqlResult where
  | query (sql : String) (database : Option String) (count : Nat)
      (items : List (List (String × JVal)))
  | mutation (sql : String) (database : Option String)
      (affectedRows changedRows insertId : Nat)

/-- One `executeSql` call with its connection ledger. -/
structure ExecuteSqlRun where
  result : Except MySqlError ExecuteSqlResult
  state : ApiState
  connAcquired : Bool
  connReleased : Bool

/-- `MySqlApi.executeSql` (part_000 lines 373-423): auth check, then a
dedicated connection is acquired and, inside `try`/`finally release`, the
reported database defaults to the session's, a per-call database is
identifier-validated and applied with a scoped `USE` on that connection
only, and the raw statement runs with its bound params, classified as
`query` for an array result and `mutation` for a header.  The class fields
are never assigned, and the `finally` releases the connection on every
path out of the body. -/
def executeSql (st : ApiState) (args : ExecuteSqlArgs) (outcome : ExecOutcome) :
    ExecuteSqlRun :=
  match st.pool with
  | none =>
    { result := .error (.authError notAuthenticatedMessage), state := st,
      connAcquired := false, connReleased := false }
  | some _pool =>
    let body : Except MySqlError ExecuteSqlResult := do
      let database ← match args.database with
        | none => Except.ok (st.session.bind (fun s => s.database))
        | some db => do
          let d ← assertIdentifier db "database"
          match outcome.useResult with
          | .error m => Except.error (MySqlError.driverError m)
          | .ok () => Except.ok (some d)
      match outcome.queryResult with
      | .error m => .error (.driverError m)
      | .ok (.rows items) => .ok (.query args.sql database items.length items)
      | .ok (.header a c i) => .ok (.mutation args.sql database a c i)
    { result := body, state := st, connAcquired := true, connReleased := true }

lemma isIdentStart_eq_false_of_isDigit (c : Char) (h : c.isDigit = true) :
    isIdentStart c = false := by
  simp [Char.isDigit] at h
  have h2 : 48 ≤ c.toNat ∧ c.toNat ≤ 57 := h
  simp [isIdentStart]
  omega

lemma matchesIdentifierPattern_eq_false_of_mem (s : String) (c : Char)
    (hc : c ∈ s.data) (h1 : isIdentStart c = false) (h2 : isIdentCont c = false) :
    matchesIdentifierPattern s = false := by
  unfold matchesIdentifierPattern
  rcases hd : s.data with _ | ⟨a, as⟩
  · rfl
  · rw [hd] at hc
    rcases List.mem_cons.mp hc with h | h
    · subst h
      simp [h1]
    · cases hall : List.all as isIdentCont with
      | false => simp [hall]
      | true =>
        exfalso
        have := List.all_eq_true.mp hall c h
        rw [h2] at this
        exact Bool.false_ne_true this

/-- C1: for every string matching `^[A-Za-z_][A-Za-z0-9_]*$` as a
full-string match, `assertIdentifier` succeeds and returns the string
unchanged and `escapeIdentifier` wraps it in backticks without altering its
character content; for every string containing a backtick (the character of
code 96), a space, or a dot, for every string starting with a digit, and
for the empty string, validation fails with a `ValidationError` naming the
field. -/
theorem identifier_validation_c1 :
    (∀ s f, matchesIdentifierPattern s = true →
      assertIdentifier s f = .ok s ∧ escapeIdentifier s f = .ok ("`" ++ s ++ "`")) ∧
    (∀ s f c, c ∈ s.data → (c.toNat = 96 ∨ c = ' ' ∨ c = '.') →
      assertIdentifier s f = .error (.validationError (invalidIdentifierMessage f))) ∧
    (∀ s f c cs, s.data = c :: cs → c.isDigit = true →
      assertIdentifier s f = .error (.validationError (invalidIdentifierMessage f))) ∧
    (∀ f, assertIdentifier "" f = .error (.validationError (invalidIdentifierMessage f))) := by
  refine ⟨?_, ?_, ?_, ?_⟩
  · intro s f h
    constructor
    · simp [assertIdentifier, h]
    · simp [escapeIdentifier, assertIdentifier, h, Except.map]
  · intro s f c hc hbad
    have hval : c.toNat = 96 ∨ c.toNat = 32 ∨ c.toNat = 46 := by
      rcases hbad with h | h | h
      · exact Or.inl h
      · subst h; exact Or.inr (Or.inl rfl)
      · subst h; exact Or.inr (Or.inr rfl)
    have h1 : isIdentStart c = false := by
      simp [isIdentStart]; omega
    have h2 : isIdentCont c = false := by
      simp [isIdentCont, isIdentStart]; omega
    have hm := matchesIdentifierPattern_eq_false_of_mem s c hc h1 h2
    simp [assertIdentifier, hm]
  · intro s f c cs hd hdig
    have h1 := isIdentStart_eq_false_of_isDigit c hdig
    have hm : matchesIdentifierPattern s = false := by
      unfold matchesIdentifierPattern
      rw [hd]
      simp [h1]
    simp [assertIdentifier, hm]
  · intro f
    rfl

theorem identifier_validation_c1_witness :
    assertIdentifier "users" "table" = .ok "users" ∧
    escapeIdentifier "users" "table" = .ok "`users`" ∧
    assertIdentifier "a b" "table" =
      .error (.validationError (invalidIdentifierMessage "table")) ∧
    assertIdentifier "a.b" "table" =
      .error (.validationError (invalidIdentifierMessage "table")) ∧
    assertIdentifier "1abc" "column" =
      .error (.validationError (invalidIdentifierMessage "column")) ∧
    assertIdentifier "" "database" =
      .error (.validationError (invalidIdentifierMessage "database")) :=
  ⟨(identifier_validation_c1.1 "users" "table" (by decide)).1,
   (identifier_validation_c1.1 "users" "table" (by decide)).2,
   identifier_validation_c1.2.1 "a b" "table" ' ' (by decide) (Or.inr (Or.inl rfl)),
   identifier_validation_c1.2.1 "a.b" "table" '.' (by decide) (Or.inr (Or.inr rfl)),
   identifier_validation_c1.2.2.1 "1abc" "column" '1' "abc".data (by rfl) (by decide),
   identifier_validation_c1.2.2.2 "database"⟩

lemma escapeIdentifier_ok (v f : String) (h : matchesIdentifierPattern v = true) :
    escapeIdentifier v f = .ok ("`" ++ v ++ "`") := by
  simp [escapeIdentifier, assertIdentifier, h, Except.map]

lemma escapeIdentifier_error (v f : String) (h : matchesIdentifierPattern v = false) :
    escapeIdentifier v f = .error (.validationError (invalidIdentifierMessage f)) := by
  simp [escapeIdentifier, assertIdentifier, h, Except.map]

/-- The condition the spec prescribes for one `FilterSet` entry: the
backtick-quoted key followed by `IS NULL` for a null value and `= ?`
otherwise.  This is the spec's wording, to be compared with the
source-derived `buildWhereClause`. -/
def buildWhereSpecCondition (kv : String × JVal) : String :=
  "`" ++ kv.1 ++ "`" ++ (if kv.2.isNull then " IS NULL" else " = ?")

lemma buildWhereParts_eq (w : List (String × JVal))
    (h : ∀ kv ∈ w, matchesIdentifierPattern kv.1 = true) :
    buildWhereParts w = .ok (w.map buildWhereSpecCondition,
      (w.filter (fun kv => !kv.2.isNull)).map (fun kv => kv.2)) := by
  induction w with
  | nil => rfl
  | cons kv rest ih =>
    obtain ⟨key, value⟩ := kv
    have hk : matchesIdentifierPattern key = true := h (key, value) (List.mem_cons_self _ _)
    have hrest := ih (fun kv hkv => h kv (List.mem_cons_of_mem _ hkv))
    simp only [buildWhereParts, escapeIdentifier_ok key _ hk, hrest, bind, Except.bind]
    cases value <;> simp [buildWhereSpecCondition, JVal.isNull]

lemma buildWhereParts_ok_keys (w : List (String × JVal)) (r : List String × List JVal)
    (h : buildWhereParts w = .ok r) :
    ∀ kv ∈ w, matchesIdentifierPattern kv.1 = true := by
  induction w generalizing r with
  | nil => intro kv hkv; exact absurd hkv (List.not_mem_nil kv)
  | cons kv0 rest ih =>
    obtain ⟨key, value⟩ := kv0
    intro kv hkv
    rcases hp : matchesIdentifierPattern key with _ | _
    · rw [buildWhereParts, escapeIdentifier_error key _ hp] at h
      exact absurd h (by simp [bind, Except.bind])
    · rw [buildWhereParts, escapeIdentifier_ok key _ hp] at h
      simp only [bind, Except.bind] at h
      rcases hrest : buildWhereParts rest with e | pr
      · rw [hrest] at h
        exact absurd h (by simp)
      · rcases List.mem_cons.mp hkv with heq | hmem
        · subst heq; exact hp
        · exact ih pr hrest kv hmem

/-- C5: `buildWhereClause` on an absent or empty `FilterSet` returns empty
SQL and no bound values; on a non-empty `FilterSet` with valid keys it
returns `" WHERE k1 = ? AND k2 = ? ..."` joined by AND in iteration order,
where null-valued entries render as `IS NULL` with no bound value, every
key backtick-quoted, and the bound values are exactly the non-null values
in order; moreover whenever it succeeds every key passed identifier
validation. -/
theorem buildWhere_c5 :
    buildWhereClause none = .ok ("", []) ∧
    buildWhereClause (some []) = .ok ("", []) ∧
    (∀ w, w ≠ [] → (∀ kv ∈ w, matchesIdentifierPattern kv.1 = true) →
      buildWhereClause (some w) =
        .ok (" WHERE " ++ String.intercalate " AND " (w.map buildWhereSpecCondition),
             (w.filter (fun kv => !kv.2.isNull)).map (fun kv => kv.2))) ∧
    (∀ w r, buildWhereClause (some w) = .ok r →
      ∀ kv ∈ w, matchesIdentifierPattern kv.1 = true) := by
  refine ⟨rfl, rfl, ?_, ?_⟩
  · intro w hne h
    have hlen : ¬ w.length = 0 := by simpa [List.length_eq_zero] using hne
    simp only [buildWhereClause, if_neg hlen, buildWhereParts_eq w h, bind, Except.bind]
  · intro w r hok kv hkv
    rcases hw : w with _ | ⟨kv0, rest⟩
    · subst hw; exact absurd hkv (List.not_mem_nil kv)
    · subst hw
      simp only [buildWhereClause] at hok
      rw [if_neg (by simp)] at hok
      simp only [bind, Except.bind] at hok
      rcases hparts : buildWhereParts (kv0 :: rest) with e | pr
      · rw [hparts] at hok
        exact absurd hok (by simp)
      · exact buildWhereParts_ok_keys _ pr hparts kv hkv

theorem buildWhere_c5_witness :
    buildWhereClause (some [("a", JVal.jint 1), ("b", JVal.jnull)]) =
      .ok (" WHERE `a` = ? AND `b` IS NULL", [JVal.jint 1]) :=
  buildWhere_c5.2.2.1 [("a", JVal.jint 1), ("b", JVal.jnull)]
    (List.cons_ne_nil _ _) (by decide)

/-- C3: after a failed `authenticate` (the pool creation or `SELECT 1`
probe throws), no `Session` is installed: the call fails with an
`AuthError` carrying the underlying cause, both fields are cleared
regardless of any prior session, and `getAuthStatus` afterwards reports
`authenticated: false` with no session. -/
theorem auth_failure_clears_session_c3 :
    ∀ st args message,
      authMySql st args (.error message) =
        (.error (.authError ("MySQL authentication failed: " ++ message)),
         { pool := none, session := none }) ∧
      getAuthStatus (authMySql st args (.error message)).2 =
        { authenticated := false, session := none } := by
  intro st args message
  exact ⟨rfl, rfl⟩

/-- C10: `health` with no pool returns the normal success value
`{ok: false, authenticated: false, message: "Not authenticated"}` rather
than throwing an `AuthError`; with a pool it returns `ok: true` and
`authenticated: true`. -/
theorem health_c10 :
    (∀ sess, health { pool := none, session := sess } =
      .ok { ok := false, authenticated := false, message := "Not authenticated" }) ∧
    (∀ pool sess, health { pool := some pool, session := sess } =
      .ok { ok := true, authenticated := true, message := "MySQL connection is healthy",
            serverTime := some pool.now }) :=
  ⟨fun _ => rfl, fun _ _ => rfl⟩

/-- C4: with no pool installed (no successful `authenticate`), every row
and schema operation — `list_databases`, `list_tables`, `describe_table`,
`use_database`, `select_rows`, `insert_row`, `update_rows`, `delete_rows`,
`execute_sql` — fails with the `AuthError` thrown by
`ensureAuthenticated`, for all arguments. -/
theorem unauthenticated_ops_c4 :
    ∀ sess dbArg descArgs selArgs insArgs updArgs delArgs useArg execArgs outcome,
      listDatabases { pool := none, session := sess } =
        .error (.authError notAuthenticatedMessage) ∧
      listTables { pool := none, session := sess } dbArg =
        .error (.authError notAuthenticatedMessage) ∧
      describeTable { pool := none, session := sess } descArgs =
        .error (.authError notAuthenticatedMessage) ∧
      useDatabase { pool := none, session := sess } useArg =
        (.error (.authError notAuthenticatedMessage), { pool := none, session := sess }) ∧
      selectRows { pool := none, session := sess } selArgs =
        .error (.authError notAuthenticatedMessage) ∧
      insertRow { pool := none, session := sess } insArgs =
        .error (.authError notAuthenticatedMessage) ∧
      updateRows { pool := none, session := sess } updArgs =
        .error (.authError notAuthenticatedMessage) ∧
      deleteRows { pool := none, session := sess } delArgs =
        .error (.authError notAuthenticatedMessage) ∧
      (executeSql { pool := none, session := sess } execArgs outcome).result =
        .error (.authError notAuthenticatedMessage) := by
  intro sess dbArg descArgs selArgs insArgs updArgs delArgs useArg execArgs outcome
  exact ⟨rfl, rfl, rfl, rfl, rfl, rfl, rfl, rfl, rfl⟩

/-- C9: `executeSql` never changes the `MySqlApi` state — in particular the
session's active database is the same after the call as before, whether or
not a per-call `database` argument was supplied — and its dedicated
connection is released exactly when it was acquired (on every exit path
out of the `try` body, including driver errors from the `USE` or the raw
statement). -/
theorem executeSql_frame_c9 :
    ∀ st args outcome,
      (executeSql st args outcome).state = st ∧
      (executeSql st args outcome).connAcquired = st.pool.isSome ∧
      (executeSql st args outcome).connReleased = st.pool.isSome := by
  intro st args outcome
  rcases st with ⟨pool, sess⟩
  cases pool
  · exact ⟨rfl, rfl, rfl⟩
  · exact ⟨rfl, rfl, rfl⟩

lemma filter_eq_self_length_zero_iff (l : List String) (x : String) :
    (l.filter (fun name => name = x)).length = 0 ↔ x ∉ l := by
  rw [List.length_eq_zero, List.filter_eq_nil_iff]
  constructor
  · intro h hmem
    exact absurd (by simp : decide (x = x) = true) (by simpa using h x hmem)
  · intro h a ha
    simp only [decide_eq_true_eq]
    intro heq
    exact h (heq ▸ ha)

/-- C8: `useDatabase` never sets the session's active database to a
non-existent schema.  On any error the state is unchanged; a successful
call requires the (identifier-validated) name to be present in the
server's schema catalog and replaces only the session's `database` field;
and a name absent from the catalog yields the `ApiError`
`"Database not found: ..."` with the state unchanged. -/
theorem useDatabase_c8 :
    ∀ st dbArg,
      (∀ e st2, useDatabase st dbArg = (.error e, st2) → st2 = st) ∧
      (∀ r st2, useDatabase st dbArg = (.ok r, st2) →
        ∃ pool sess, st.pool = some pool ∧ st.session = some sess ∧
          dbArg ∈ pool.schemata ∧
          st2 = { st with session := some { sess with database := some dbArg } } ∧
          r = { message := "Default database set to " ++ dbArg, database := dbArg,
                authenticated := true }) ∧
      (∀ pool, st.pool = some pool → matchesIdentifierPattern dbArg = true →
        dbArg ∉ pool.schemata →
        useDatabase st dbArg = (.error (.apiError ("Database not found: " ++ dbArg)), st)) := by
  intro st dbArg
  rcases st with ⟨poolOpt, sessOpt⟩
  cases poolOpt with
  | none =>
    refine ⟨?_, ?_, ?_⟩
    · intro e st2 h
      have h2 := congrArg Prod.snd h
      exact h2.symm
    · intro r st2 h
      exact absurd (congrArg Prod.fst h) (by simp [useDatabase])
    · intro pool h
      exact absurd h (by simp)
  | some pool =>
    rcases hp : matchesIdentifierPattern dbArg with _ | _
    · have hassert : assertIdentifier dbArg "database" =
          .error (.validationError (invalidIdentifierMessage "database")) := by
        simp [assertIdentifier, hp]
      refine ⟨?_, ?_, ?_⟩
      · intro e st2 h
        simp only [useDatabase, hassert] at h
        exact (congrArg Prod.snd h).symm
      · intro r st2 h
        simp only [useDatabase, hassert] at h
        exact absurd (congrArg Prod.fst h) (by simp)
      · intro pool2 hpool hpat
        exact absurd hpat (by simp [hp])
    · have hassert : assertIdentifier dbArg "database" = .ok dbArg := by
        simp [assertIdentifier, hp]
      by_cases hmem : dbArg ∈ pool.schemata
      · have hlen : ¬ (pool.schemata.filter (fun name => name = dbArg)).length = 0 := by
          rw [filter_eq_self_length_zero_iff]
          simpa using hmem
        cases sessOpt with
        | none =>
          refine ⟨?_, ?_, ?_⟩
          · intro e st2 h
            simp only [useDatabase, hassert, if_neg hlen] at h
            exact (congrArg Prod.snd h).symm
          · intro r st2 h
            simp only [useDatabase, hassert, if_neg hlen] at h
            exact absurd (congrArg Prod.fst h) (by simp)
          · intro pool2 hpool hpat hmem2
            have : pool2 = pool := by
              have := congrArg (fun o => o.getD pool) hpool
              simpa using this.symm
            exact absurd (this ▸ hmem) hmem2
        | some sess =>
          refine ⟨?_, ?_, ?_⟩
          · intro e st2 h
            simp only [useDatabase, hassert, if_neg hlen] at h
            exact absurd (congrArg Prod.fst h) (by simp)
          · intro r st2 h
            simp only [useDatabase, hassert, if_neg hlen] at h
            refine ⟨pool, sess, rfl, rfl, hmem, (congrArg Prod.snd h).symm, ?_⟩
            have := congrArg Prod.fst h
            simp only at this
            exact (Except.ok.injEq _ _ ▸ this).symm ▸ rfl
          · intro pool2 hpool hpat hmem2
            have : pool2 = pool := by
              have := congrArg (fun o => o.getD pool) hpool
              simpa using this.symm
            exact absurd (this ▸ hmem) hmem2
      · have hlen : (pool.schemata.filter (fun name => name = dbArg)).length = 0 := by
          rw [filter_eq_self_length_zero_iff]
          exact hmem
        refine ⟨?_, ?_, ?_⟩
        · intro e st2 h
          simp only [useDatabase, hassert, if_pos hlen] at h
          exact (congrArg Prod.snd h).symm
        · intro r st2 h
          simp only [useDatabase, hassert, if_pos hlen] at h
          exact absurd (congrArg Prod.fst h) (by simp)
        · intro pool2 hpool hpat hmem2
          have hpe : pool2 = pool := by
            have := congrArg (fun o => o.getD pool) hpool
            simpa using this.symm
          subst hpe
          simp only [useDatabase, hassert, if_pos hlen]

theorem useDatabase_c8_witness :
    useDatabase
        { pool := some { schemata := ["app_db"], tables := [], columns := [], now := "now" },
          session := some { host := "h", port := 3306, user := "u", database := none,
                            ssl := false } }
        "missing_db" =
      (.error (.apiError ("Database not found: " ++ "missing_db")),
       { pool := some { schemata := ["app_db"], tables := [], columns := [], now := "now" },
         session := some { host := "h", port := 3306, user := "u", database := none,
                           ssl := false } }) :=
  (useDatabase_c8 _ "missing_db").2.2 _ rfl (by decide) (by decide)

lemma escapeIdentifier_error_shape (v f : String) (e : MySqlError)
    (h : escapeIdentifier v f = .error e) : ∃ m, e = .validationError m := by
  by_cases hp : matchesIdentifierPattern v
  · rw [escapeIdentifier_ok v f hp] at h
    exact absurd h (by simp)
  · rw [escapeIdentifier_error v f (by simpa using hp)] at h
    cases h
    exact ⟨_, rfl⟩

lemma escapeTableReference_error_shape (st : ApiState) (t : String) (d : Option String)
    (e : MySqlError) (h : escapeTableReference st t d = .error e) :
    ∃ m, e = .validationError m := by
  simp only [escapeTableReference, bind, Except.bind] at h
  rcases ht : escapeIdentifier t "table" with e1 | v1
  · rw [ht] at h
    cases h
    exact escapeIdentifier_error_shape t "table" _ ht
  · rw [ht] at h
    rcases hres : (match d with
        | some db => some db
        | none => st.session.bind (fun s => s.database)) with _ | db
    · rw [hres] at h
      cases h
      exact ⟨_, rfl⟩
    · rw [hres] at h
      simp only [bind, Except.bind] at h
      rcases hd : escapeIdentifier db "database" with e2 | v2
      · rw [hd] at h
        cases h
        exact escapeIdentifier_error_shape db "database" _ hd
      · rw [hd] at h
        exact absurd h (by simp)

lemma buildWhereParts_error_shape (w : List (String × JVal)) (e : MySqlError)
    (h : buildWhereParts w = .error e) : ∃ m, e = .validationError m := by
  induction w with
  | nil => exact absurd h (by simp [buildWhereParts])
  | cons kv rest ih =>
    obtain ⟨key, value⟩ := kv
    simp only [buildWhereParts, bind, Except.bind] at h
    rcases hk : escapeIdentifier key ("where." ++ key) with e1 | v1
    · rw [hk] at h
      cases h
      exact escapeIdentifier_error_shape _ _ _ hk
    · rw [hk] at h
      rcases hr : buildWhereParts rest with e2 | pr
      · rw [hr] at h
        cases h
        exact ih hr
      · rw [hr] at h
        rcases value with _ | _ | _ | _ | _ | _ <;> exact absurd h (by simp)

lemma buildWhereClause_error_shape (w : Option (List (String × JVal))) (e : MySqlError)
    (h : buildWhereClause w = .error e) : ∃ m, e = .validationError m := by
  rcases w with _ | w
  · exact absurd h (by simp [buildWhereClause])
  · simp only [buildWhereClause] at h
    by_cases hl : w.length = 0
    · rw [if_pos hl] at h
      exact absurd h (by simp)
    · rw [if_neg hl] at h
      simp only [bind, Except.bind] at h
      rcases hp : buildWhereParts w with e1 | pr
      · rw [hp] at h
        cases h
        exact buildWhereParts_error_shape w _ hp
      · rw [hp] at h
        exact absurd h (by simp)

lemma mapM_escapeIdentifier_error_shape (cols : List String) (fld : String → String)
    (e : MySqlError) (h : cols.mapM (fun c => escapeIdentifier c (fld c)) = .error e) :
    ∃ m, e = .validationError m := by
  induction cols with
  | nil => exact absurd h (by simp [List.mapM, List.mapM.loop, pure, Except.pure])
  | cons c cs ih =>
    rw [List.mapM_cons] at h
    simp only [bind, Except.bind] at h
    rcases hc : escapeIdentifier c (fld c) with e1 | v1
    · rw [hc] at h
      cases h
      exact escapeIdentifier_error_shape _ _ _ hc
    · rw [hc] at h
      rcases hcs : cs.mapM (fun c => escapeIdentifier c (fld c)) with e2 | vs
      · rw [hcs] at h
        cases h
        exact ih hcs
      · rw [hcs] at h
        exact absurd h (by simp [pure, Except.pure])

lemma buildOrderBySqlFragment_error_shape (ob : Option String) (e : MySqlError)
    (h : buildOrderBySqlFragment ob = .error e) : ∃ m, e = .validationError m := by
  rcases ob with _ | s
  · exact absurd h (by simp [buildOrderBySqlFragment])
  · simp only [buildOrderBySqlFragment] at h
    by_cases hs : s = ""
    · rw [if_pos hs] at h
      exact absurd h (by simp)
    · rw [if_neg hs] at h
      simp only [bind, Except.bind] at h
      split at h
      · rename_i err heq
        cases h
        exact escapeIdentifier_error_shape _ _ _ heq
      · rename_i v heq
        split at h
        · split at h <;> exact absurd h (by simp)
        · exact absurd h (by simp)

lemma exceptBind_ok {α β : Type} (a : α) (f : α → Except MySqlError β) :
    (Except.ok a : Except MySqlError α) >>= f = f a := rfl

lemma exceptBind_error {α β : Type} (e : MySqlError) (f : α → Except MySqlError β) :
    (Except.error e : Except MySqlError α) >>= f = .error e := rfl

/-- C6: a `selectRows` call that supplies `offset` without `limit` fails
with a `ValidationError` for every table/database combination (given an
installed pool — without one the auth check fires first); and whenever
`limit` is present and the call succeeds, the limit (and offset) values
travel as bound parameters appended after the WHERE values, with the SQL
text carrying only `?` placeholders for them. -/
theorem selectRows_offset_limit_c6 :
    (∀ st args pool o, st.pool = some pool → args.offset = some o → args.limit = none →
      ∃ m, selectRows st args = .error (.validationError m)) ∧
    (∀ st args q n, selectRows st args = .ok q → args.limit = some n →
      ∃ whereSql whereVals prefixSql,
        buildWhereClause args.whereArg = .ok (whereSql, whereVals) ∧
        ((args.offset = none ∧ q.values = whereVals ++ [JVal.jint n] ∧
            q.sql = prefixSql ++ " LIMIT ?") ∨
         (∃ o, args.offset = some o ∧
            q.values = whereVals ++ [JVal.jint n, JVal.jint o] ∧
            q.sql = prefixSql ++ " LIMIT ? OFFSET ?"))) := by
  constructor
  · intro st args pool o hpool hoff hlim
    have hens : ensureAuthenticated st = .ok pool := by
      simp [ensureAuthenticated, hpool]
    rcases htr : escapeTableReference st args.table args.database with e | tref
    · obtain ⟨m, hm⟩ := escapeTableReference_error_shape _ _ _ _ htr
      subst hm
      exact ⟨m, by simp only [selectRows, hens, htr, exceptBind_ok, exceptBind_error]⟩
    · have finish : ∀ columns : String,
          ∃ m, (do
            let whereClause ← buildWhereClause args.whereArg
            let orderBySql ← buildOrderBySqlFragment args.orderBy
            let limitStep : String × List JVal :=
              match args.limit with
              | some n => (" LIMIT ?", [JVal.jint n])
              | none => ("", [])
            let (limitSql, pageValues) ←
              match args.offset with
              | none => Except.ok limitStep
              | some o =>
                match args.limit with
                | none =>
                  Except.error (MySqlError.validationError "Invalid parameter: offset requires limit")
                | some _ =>
                  Except.ok (limitStep.1 ++ " OFFSET ?", limitStep.2 ++ [JVal.jint o])
            Except.ok { sql := "SELECT " ++ columns ++ " FROM " ++ tref ++ whereClause.1 ++
                          orderBySql ++ limitSql,
                        values := whereClause.2 ++ pageValues : SqlQuery }) =
            .error (.validationError m) := by
        intro columns
        rcases hw : buildWhereClause args.whereArg with ew | wpair
        · obtain ⟨m, hm⟩ := buildWhereClause_error_shape _ _ hw
          subst hm
          exact ⟨m, by simp only [hw, exceptBind_ok, exceptBind_error]⟩
        · rcases hob : buildOrderBySqlFragment args.orderBy with eob | obsql
          · obtain ⟨m, hm⟩ := buildOrderBySqlFragment_error_shape _ _ hob
            subst hm
            exact ⟨m, by simp only [hw, hob, exceptBind_ok, exceptBind_error]⟩
          · exact ⟨"Invalid parameter: offset requires limit",
              by simp only [hw, hob, hoff, hlim, exceptBind_ok, exceptBind_error]⟩
      rcases hcols : args.columns with _ | ⟨_ | ⟨c, cs⟩⟩
      · obtain ⟨m, hm⟩ := finish "*"
        exact ⟨m, by
          simp only [selectRows, hens, htr, hcols, exceptBind_ok]
          exact hm⟩
      · obtain ⟨m, hm⟩ := finish "*"
        exact ⟨m, by
          simp only [selectRows, hens, htr, hcols, exceptBind_ok]
          exact hm⟩
      · rcases hmm : (c :: cs).mapM
            (fun column => escapeIdentifier column ("columns." ++ column)) with em | vs
        · obtain ⟨m, hm⟩ := mapM_escapeIdentifier_error_shape _ _ _ hmm
          subst hm
          exact ⟨m, by
            simp only [selectRows, hens, htr, hcols, hmm, Except.map, exceptBind_ok,
              exceptBind_error]⟩
        · obtain ⟨m, hm⟩ := finish (String.intercalate ", " vs)
          exact ⟨m, by
            simp only [selectRows, hens, htr, hcols, hmm, Except.map, exceptBind_ok]
            exact hm⟩
  · intro st args q n hq hlim
    rcases hpool : st.pool with _ | pool
    · have hens : ensureAuthenticated st = .error (.authError notAuthenticatedMessage) := by
        simp [ensureAuthenticated, hpool]
      rw [selectRows] at hq
      rw [hens, exceptBind_error] at hq
      exact absurd hq (by simp)
    · have hens : ensureAuthenticated st = .ok pool := by
        simp [ensureAuthenticated, hpool]
      rw [selectRows] at hq
      rw [hens, exceptBind_ok] at hq
      rcases htr : escapeTableReference st args.table args.database with e | tref
      · rw [htr, exceptBind_error] at hq
        exact absurd hq (by simp)
      · rw [htr, exceptBind_ok] at hq
        have hcore : ∀ columns : String,
            (do
              let whereClause ← buildWhereClause args.whereArg
              let orderBySql ← buildOrderBySqlFragment args.orderBy
              let limitStep : String × List JVal :=
                match args.limit with
                | some n => (" LIMIT ?", [JVal.jint n])
                | none => ("", [])
              let (limitSql, pageValues) ←
                match args.offset with
                | none => Except.ok limitStep
                | some o =>
                  match args.limit with
                  | none =>
                    Except.error (MySqlError.validationError "Invalid parameter: offset requires limit")
                  | some _ =>
                    Except.ok (limitStep.1 ++ " OFFSET ?", limitStep.2 ++ [JVal.jint o])
              Except.ok { sql := "SELECT " ++ columns ++ " FROM " ++ tref ++ whereClause.1 ++
                            orderBySql ++ limitSql,
                          values := whereClause.2 ++ pageValues : SqlQuery }) = .ok q →
            ∃ whereSql whereVals prefixSql,
              buildWhereClause args.whereArg = .ok (whereSql, whereVals) ∧
              ((args.offset = none ∧ q.values = whereVals ++ [JVal.jint n] ∧
                  q.sql = prefixSql ++ " LIMIT ?") ∨
               (∃ o, args.offset = some o ∧
                  q.values = whereVals ++ [JVal.jint n, JVal.jint o] ∧
                  q.sql = prefixSql ++ " LIMIT ? OFFSET ?")) := by
          intro columns hcq
          rcases hw : buildWhereClause args.whereArg with ew | ⟨wsql, wvals⟩
          · rw [hw, exceptBind_error] at hcq
            exact absurd hcq (by simp)
          · rw [hw, exceptBind_ok] at hcq
            rcases hob : buildOrderBySqlFragment args.orderBy with eob | obsql
            · rw [hob, exceptBind_error] at hcq
              exact absurd hcq (by simp)
            · rw [hob, exceptBind_ok] at hcq
              rcases hoff : args.offset with _ | o
              · rw [hoff, hlim] at hcq
                simp only [exceptBind_ok] at hcq
                refine ⟨wsql, wvals,
                  "SELECT " ++ columns ++ " FROM " ++ tref ++ wsql ++ obsql, rfl,
                  Or.inl ⟨rfl, ?_, ?_⟩⟩
                · exact (congrArg SqlQuery.values (Except.ok.inj hcq)).symm
                · exact (congrArg SqlQuery.sql (Except.ok.inj hcq)).symm
              · rw [hoff, hlim] at hcq
                simp only [exceptBind_ok] at hcq
                refine ⟨wsql, wvals,
                  "SELECT " ++ columns ++ " FROM " ++ tref ++ wsql ++ obsql, rfl,
                  Or.inr ⟨o, rfl, ?_, ?_⟩⟩
                · exact (congrArg SqlQuery.values (Except.ok.inj hcq)).symm
                · exact (congrArg SqlQuery.sql (Except.ok.inj hcq)).symm
        rcases hcols : args.columns with _ | ⟨_ | ⟨c, cs⟩⟩
        · simp only [hcols, pure, Except.pure, exceptBind_ok] at hq
          exact hcore "*" hq
        · simp only [hcols, pure, Except.pure, exceptBind_ok] at hq
          exact hcore "*" hq
        · simp only [hcols, Except.map] at hq
          rcases hmm : (c :: cs).mapM
              (fun column => escapeIdentifier column ("columns." ++ column)) with em | vs
          · rw [hmm] at hq
            exact absurd hq (by simp [exceptBind_error])
          · rw [hmm] at hq
            simp only [exceptBind_ok] at hq
            exact hcore (String.intercalate ", " vs) hq

/-- A concrete authenticated state used to exercise the select theorems. -/
def c6StateW : ApiState :=
  { pool := some { schemata := ["app_db"], tables := [], columns := [], now := "now" },
    session := some { host := "h", port := 3306, user := "u",
                      database := some "app_db", ssl := false } }

def c6SelectArgsA : SelectRowsArgs := { table := "users", offset := some 1 }

def c6SelectArgsB : SelectRowsArgs := { table := "users", limit := some 10, offset := some 2 }

def c6QueryB : SqlQuery :=
  { sql := "SELECT * FROM `app_db`.`users` LIMIT ? OFFSET ?",
    values := [JVal.jint 10, JVal.jint 2] }

theorem selectRows_offset_limit_c6_witness :
    (∃ m, selectRows c6StateW c6SelectArgsA = .error (.validationError m)) ∧
    (∃ whereSql whereVals prefixSql,
      buildWhereClause c6SelectArgsB.whereArg = .ok (whereSql, whereVals) ∧
      ((c6SelectArgsB.offset = none ∧
          c6QueryB.values = whereVals ++ [JVal.jint 10] ∧
          c6QueryB.sql = prefixSql ++ " LIMIT ?") ∨
       (∃ o, c6SelectArgsB.offset = some o ∧
          c6QueryB.values = whereVals ++ [JVal.jint 10, JVal.jint o] ∧
          c6QueryB.sql = prefixSql ++ " LIMIT ? OFFSET ?"))) :=
  ⟨selectRows_offset_limit_c6.1 c6StateW c6SelectArgsA
      { schemata := ["app_db"], tables := [], columns := [], now := "now" } 1 rfl rfl rfl,
   selectRows_offset_limit_c6.2 c6StateW c6SelectArgsB c6QueryB 10 rfl rfl⟩

lemma identCont_not_ws (c : Char) (h : isIdentCont c = true) : c.isWhitespace = false := by
  cases hw : c.isWhitespace
  · rfl
  · exfalso
    simp [Char.isWhitespace] at hw
    rcases hw with ((h' | h') | h') | h' <;> (subst h'; exact absurd h (by decide))

lemma matchesIdentifierPattern_no_ws (col : String) (h : matchesIdentifierPattern col = true) :
    ∀ c ∈ col.data, c.isWhitespace = false := by
  intro c hc
  unfold matchesIdentifierPattern at h
  rcases hd : col.data with _ | ⟨a, as⟩
  · rw [hd] at hc
    exact absurd hc (List.not_mem_nil c)
  · rw [hd] at hc
    simp only [hd, Bool.and_eq_true] at h
    rcases List.mem_cons.mp hc with he | hm
    · subst he
      exact identCont_not_ws c (by simp [isIdentCont, h.1])
    · exact identCont_not_ws c (List.all_eq_true.mp h.2 c hm)

lemma matchesIdentifierPattern_ne_empty (col : String)
    (h : matchesIdentifierPattern col = true) : col ≠ "" := by
  intro he
  subst he
  exact absurd h (by decide)

lemma splitWsGo_no_ws (cs : List Char) (acc : List Char) (fuel : Nat)
    (h : ∀ c ∈ cs, c.isWhitespace = false) (hf : cs.length ≤ fuel) :
    splitWsGo fuel cs acc = [String.mk (acc.reverse ++ cs)] := by
  induction cs generalizing acc fuel with
  | nil => cases fuel <;> simp [splitWsGo]
  | cons c cs ih =>
    cases fuel with
    | zero => simp at hf
    | succ fuel =>
      have hc : c.isWhitespace = false := h c (List.mem_cons_self _ _)
      have hrest : ∀ x ∈ cs, x.isWhitespace = false :=
        fun x hx => h x (List.mem_cons_of_mem _ hx)
      simp only [splitWsGo, hc, Bool.false_eq_true, if_false,
        ih (c :: acc) fuel hrest (by simpa using hf)]
      simp [List.append_assoc]

lemma splitWs_no_ws (s : String) (h : ∀ c ∈ s.data, c.isWhitespace = false) :
    splitWs s = [s] := by
  unfold splitWs
  rw [splitWsGo_no_ws s.data [] s.data.length h (le_refl _)]
  rfl

lemma dropWhile_ws_eq_self (ys : List Char) (h : ∀ c ∈ ys, c.isWhitespace = false) :
    ys.dropWhile Char.isWhitespace = ys := by
  cases ys with
  | nil => rfl
  | cons y ys => simp [List.dropWhile_cons, h y (List.mem_cons_self _ _)]

lemma splitWsGo_sep (xs ys : List Char) (acc : List Char) (fuel : Nat)
    (hxs : ∀ c ∈ xs, c.isWhitespace = false) (hys : ∀ c ∈ ys, c.isWhitespace = false)
    (hf : xs.length + 1 + ys.length ≤ fuel) :
    splitWsGo fuel (xs ++ ' ' :: ys) acc = [String.mk (acc.reverse ++ xs), String.mk ys] := by
  induction xs generalizing acc fuel with
  | nil =>
    cases fuel with
    | zero => simp at hf
    | succ fuel =>
      simp only [List.nil_append, splitWsGo]
      rw [if_pos (by decide)]
      rw [dropWhile_ws_eq_self ys hys]
      rw [splitWsGo_no_ws ys [] fuel hys (by simp at hf; omega)]
      simp
  | cons x xs ih =>
    cases fuel with
    | zero => simp at hf
    | succ fuel =>
      have hx : x.isWhitespace = false := hxs x (List.mem_cons_self _ _)
      have hrest : ∀ c ∈ xs, c.isWhitespace = false :=
        fun c hc => hxs c (List.mem_cons_of_mem _ hc)
      have hbound : xs.length + 1 + ys.length ≤ fuel := by
        simp at hf
        omega
      simp only [List.cons_append, splitWsGo, hx, Bool.false_eq_true, if_false]
      exact (ih (x :: acc) fuel hrest hbound).trans (by simp [List.append_assoc])

lemma splitWs_sep (col dir : String) (hcol : ∀ c ∈ col.data, c.isWhitespace = false)
    (hdir : ∀ c ∈ dir.data, c.isWhitespace = false) :
    splitWs (col ++ " " ++ dir) = [col, dir] := by
  unfold splitWs
  have hdata : (col ++ " " ++ dir).data = col.data ++ ' ' :: dir.data := by
    rw [String.data_append, String.data_append]
    simp
  rw [hdata, splitWsGo_sep col.data dir.data [] _ hcol hdir (by simp; omega)]
  rfl

/-- C7: for a `select_rows` orderBy string, a lone valid column and a valid
column with a case-insensitive ASC/DESC direction pass the validator and
render as `" ORDER BY \x60col\x60"` resp. `" ORDER BY \x60col\x60 DIR"`; a
direction token other than ASC/DESC fails with a `ValidationError`, as does
an expression of more than two whitespace-separated tokens or a column that
fails identifier validation. -/
theorem orderBy_validation_c7 :
    (∀ col, matchesIdentifierPattern col = true →
      parseOrderBy col = .ok col ∧
      buildOrderBySqlFragment (some col) = .ok (" ORDER BY " ++ ("`" ++ col ++ "`"))) ∧
    (∀ col dir, matchesIdentifierPattern col = true →
      (∀ c ∈ dir.data, c.isWhitespace = false) → dir ≠ "" →
      (jsToUpperCase dir = "ASC" ∨ jsToUpperCase dir = "DESC") →
      parseOrderBy (col ++ " " ++ dir) = .ok (col ++ " " ++ dir) ∧
      buildOrderBySqlFragment (some (col ++ " " ++ dir)) =
        .ok (" ORDER BY " ++ ("`" ++ col ++ "`") ++ " " ++ jsToUpperCase dir)) ∧
    (∀ col dir, (∀ c ∈ col.data, c.isWhitespace = false) →
      (∀ c ∈ dir.data, c.isWhitespace = false) →
      jsToUpperCase dir ≠ "ASC" → jsToUpperCase dir ≠ "DESC" →
      parseOrderBy (col ++ " " ++ dir) = .error (.validationError orderByFormatMessage)) ∧
    (∀ s t1 t2 t3 rest, splitWs s = t1 :: t2 :: t3 :: rest →
      parseOrderBy s = .error (.validationError orderByFormatMessage)) ∧
    (∀ col, splitWs col = [col] → matchesIdentifierPattern col = false →
      parseOrderBy col = .error (.validationError orderByFormatMessage)) := by
  refine ⟨?_, ?_, ?_, ?_, ?_⟩
  · intro col hpat
    have hsplit := splitWs_no_ws col (matchesIdentifierPattern_no_ws col hpat)
    constructor
    · simp [parseOrderBy, hsplit, hpat]
    · have hne : col ≠ "" := matchesIdentifierPattern_ne_empty col hpat
      simp [buildOrderBySqlFragment, hne, hsplit,
        escapeIdentifier_ok col "orderBy" hpat, exceptBind_ok]
  · intro col dir hpat hdirws hdne hdir
    have hsplit := splitWs_sep col dir (matchesIdentifierPattern_no_ws col hpat) hdirws
    have hdata : (col ++ " " ++ dir).data = col.data ++ ' ' :: dir.data := by
      rw [String.data_append, String.data_append]
      simp
    have hne : (col ++ " " ++ dir) ≠ "" := by
      intro he
      rw [he] at hdata
      exact absurd hdata.symm (by simp)
    constructor
    · rcases hdir with h | h <;> simp [parseOrderBy, hsplit, hpat, h]
    · simp [buildOrderBySqlFragment, hne, hsplit,
        escapeIdentifier_ok col "orderBy" hpat, exceptBind_ok, hdne]
  · intro col dir hcolws hdirws hne1 hne2
    have hsplit := splitWs_sep col dir hcolws hdirws
    have h1 : (jsToUpperCase dir == "ASC") = false := beq_eq_false_iff_ne.mpr hne1
    have h2 : (jsToUpperCase dir == "DESC") = false := beq_eq_false_iff_ne.mpr hne2
    simp [parseOrderBy, hsplit, h1, h2]
  · intro s t1 t2 t3 rest hsplit
    simp [parseOrderBy, hsplit]
  · intro col hsplit hpat
    simp [parseOrderBy, hsplit, hpat]

theorem orderBy_validation_c7_witness :
    parseOrderBy "col" = .ok "col" ∧
    buildOrderBySqlFragment (some "col") = .ok (" ORDER BY " ++ ("`" ++ "col" ++ "`")) ∧
    parseOrderBy ("col" ++ " " ++ "DESC") = .ok ("col" ++ " " ++ "DESC") ∧
    buildOrderBySqlFragment (some ("col" ++ " " ++ "DESC")) =
      .ok (" ORDER BY " ++ ("`" ++ "col" ++ "`") ++ " " ++ jsToUpperCase "DESC") ∧
    parseOrderBy ("col" ++ " " ++ "DOWN") = .error (.validationError orderByFormatMessage) ∧
    parseOrderBy "col ASC extra" = .error (.validationError orderByFormatMessage) ∧
    parseOrderBy "9col" = .error (.validationError orderByFormatMessage) :=
  ⟨(orderBy_validation_c7.1 "col" (by decide)).1,
   (orderBy_validation_c7.1 "col" (by decide)).2,
   (orderBy_validation_c7.2.1 "col" "DESC" (by decide) (by decide) (by decide) (Or.inr rfl)).1,
   (orderBy_validation_c7.2.1 "col" "DESC" (by decide) (by decide) (by decide) (Or.inr rfl)).2,
   orderBy_validation_c7.2.2.1 "col" "DOWN" (by decide) (by decide) (by decide) (by decide),
   orderBy_validation_c7.2.2.2.1 "col ASC extra" "col" "ASC" "extra" [] (by rfl),
   orderBy_validation_c7.2.2.2.2 "9col" (by rfl) (by decide)⟩

lemma requireString_error_shape (v : Option JVal) (p : String) (e : MySqlError)
    (h : requireString v p = .error e) : ∃ m, e = .validationError m := by
  rcases v with _ | j
  · simp only [requireString] at h
    cases h
    exact ⟨_, rfl⟩
  · rcases j with _ | b | n | s | a | o <;> simp only [requireString] at h <;>
      cases h <;> exact ⟨_, rfl⟩

lemma optionalString_error_shape (v : Option JVal) (p : String) (e : MySqlError)
    (h : optionalString v p = .error e) : ∃ m, e = .validationError m := by
  rcases v with _ | j
  · exact absurd h (by simp [optionalString])
  · rcases j with _ | b | n | s | a | o <;> simp only [optionalString] at h <;>
      cases h <;> exact ⟨_, rfl⟩

lemma mapM_error_shape {α : Type} (f : α → Except MySqlError String) (l : List α)
    (hf : ∀ a e1, f a = .error e1 → ∃ m, e1 = .validationError m) (e : MySqlError)
    (h : l.mapM f = .error e) : ∃ m, e = .validationError m := by
  induction l with
  | nil => exact absurd h (by simp [List.mapM, List.mapM.loop, pure, Except.pure])
  | cons a rest ih =>
    rw [List.mapM_cons] at h
    simp only [bind, Except.bind] at h
    rcases ha : f a with e1 | v
    · rw [ha] at h
      cases h
      exact hf a _ ha
    · rw [ha] at h
      rcases hrest : rest.mapM f with e2 | vs
      · rw [hrest] at h
        cases h
        exact ih hrest
      · rw [hrest] at h
        exact absurd h (by simp [pure, Except.pure])

lemma assertStringArray_error_shape (v : JVal) (p : String) (e : MySqlError)
    (h : assertStringArray v p = .error e) : ∃ m, e = .validationError m := by
  rcases v with _ | b | n | s | a | o
  case jarr =>
    simp only [assertStringArray] at h
    refine mapM_error_shape _ a ?_ e h
    intro el e1 h1
    rcases el with _ | _ | _ | s1 | _ | _ <;> cases h1 <;> exact ⟨_, rfl⟩
  all_goals
    simp only [assertStringArray] at h
    cases h
    exact ⟨_, rfl⟩

lemma parseWhere_empty (p : String) :
    parseWhere (some (.jobj [])) p =
      .error (.validationError ("Invalid parameter: " ++ p ++ " cannot be an empty object")) :=
  rfl

/-- C2 (amended): `update_rows` and `delete_rows` reject an empty `where`
with a `ValidationError` at both the argument-validation and the gateway
layer; `select_rows` with `where: {}` also fails with a `ValidationError`
at argument validation; and the gateway treats an empty `where` object
exactly like an absent one, building an unfiltered select. -/
theorem empty_where_c2_amended :
    (∀ args, lookupArg args "where" = some (.jobj []) →
      parseUpdateRowsArgs args =
        .error (.validationError "Invalid parameter: where cannot be an empty object")) ∧
    (∀ args, lookupArg args "where" = some (.jobj []) →
      parseDeleteRowsArgs args =
        .error (.validationError "Invalid parameter: where cannot be an empty object")) ∧
    (∀ st args pool, st.pool = some pool → args.whereArg = [] →
      ∃ m, updateRows st args = .error (.validationError m)) ∧
    (∀ st args pool, st.pool = some pool → args.whereArg = [] →
      ∃ m, deleteRows st args = .error (.validationError m)) ∧
    (∀ args, lookupArg args "where" = some (.jobj []) →
      ∃ m, parseSelectRowsArgs args = .error (.validationError m)) ∧
    (∀ st args, args.whereArg = some [] →
      selectRows st args = selectRows st { args with whereArg := none }) := by
  refine ⟨?_, ?_, ?_, ?_, ?_, ?_⟩
  · intro args h
    simp [parseUpdateRowsArgs, h, requireObject, exceptBind_ok]
  · intro args h
    simp [parseDeleteRowsArgs, h, requireObject, exceptBind_ok]
  · intro st args pool hpool hwhere
    have hens : ensureAuthenticated st = .ok pool := by
      simp [ensureAuthenticated, hpool]
    rcases htr : escapeTableReference st args.table args.database with e | tref
    · obtain ⟨m, hm⟩ := escapeTableReference_error_shape _ _ _ _ htr
      subst hm
      exact ⟨m, by simp only [updateRows, hens, htr, exceptBind_ok, exceptBind_error]⟩
    · by_cases hdata : args.data.length = 0
      · exact ⟨"Invalid parameter: data cannot be empty", by
          simp only [updateRows, hens, htr, exceptBind_ok, if_pos hdata]⟩
      · rcases hmm : args.data.mapM
            (fun kv => (escapeIdentifier kv.1 ("data." ++ kv.1)).map
              (fun k => k ++ " = ?")) with em | setParts
        · have hshape : ∃ m, em = .validationError m := by
            refine mapM_error_shape _ args.data ?_ em hmm
            intro a e1 h1
            rcases hesc : escapeIdentifier a.1 ("data." ++ a.1) with ee | vv
            · simp only [hesc, Except.map] at h1
              cases h1
              exact escapeIdentifier_error_shape _ _ _ hesc
            · simp only [hesc, Except.map] at h1
              exact absurd h1 (by simp)
          obtain ⟨m, hm⟩ := hshape
          subst hm
          exact ⟨m, by
            simp only [updateRows, hens, htr, exceptBind_ok, if_neg hdata, hmm,
              exceptBind_error]⟩
        · exact ⟨"Invalid parameter: where cannot be empty for update_rows", by
            simp only [updateRows, hens, htr, exceptBind_ok, if_neg hdata, hmm, hwhere]
            simp [buildWhereClause, exceptBind_ok]⟩
  · intro st args pool hpool hwhere
    have hens : ensureAuthenticated st = .ok pool := by
      simp [ensureAuthenticated, hpool]
    rcases htr : escapeTableReference st args.table args.database with e | tref
    · obtain ⟨m, hm⟩ := escapeTableReference_error_shape _ _ _ _ htr
      subst hm
      exact ⟨m, by simp only [deleteRows, hens, htr, exceptBind_ok, exceptBind_error]⟩
    · exact ⟨"Invalid parameter: where cannot be empty for delete_rows", by
        simp only [deleteRows, hens, htr, exceptBind_ok, hwhere]
        simp [buildWhereClause, exceptBind_ok]⟩
  · intro args h
    rcases ht : requireString (lookupArg args "table") "table" with e1 | table
    · obtain ⟨m, hm⟩ := requireString_error_shape _ _ _ ht
      subst hm
      exact ⟨m, by simp only [parseSelectRowsArgs, ht, exceptBind_error]⟩
    · rcases hd : optionalString (lookupArg args "database") "database" with e2 | db
      · obtain ⟨m, hm⟩ := optionalString_error_shape _ _ _ hd
        subst hm
        exact ⟨m, by simp only [parseSelectRowsArgs, ht, hd, exceptBind_ok, exceptBind_error]⟩
      · rcases hcv : lookupArg args "columns" with _ | cv
        · exact ⟨"Invalid parameter: where cannot be an empty object", by
            simp only [parseSelectRowsArgs, ht, hd, hcv, h, exceptBind_ok, pure, Except.pure,
              parseWhere_empty, exceptBind_error]
            rfl⟩
        · rcases ha : assertStringArray cv "columns" with e3 | cols
          · obtain ⟨m, hm⟩ := assertStringArray_error_shape _ _ _ ha
            subst hm
            exact ⟨m, by simp only [parseSelectRowsArgs, ht, hd, hcv, ha, Except.map,
              exceptBind_ok, exceptBind_error]⟩
          · exact ⟨"Invalid parameter: where cannot be an empty object", by
              simp only [parseSelectRowsArgs, ht, hd, hcv, ha, Except.map, exceptBind_ok, h,
                parseWhere_empty, exceptBind_error]
              rfl⟩
  · intro st args h
    rcases args with ⟨table, db, cols, wa, ob, lim, off⟩
    obtain rfl : wa = some [] := h
    rfl

/-- C2 counterexample to the claim as frozen: the `select_rows` tool
pipeline with `where: {}` does not succeed as an unfiltered select — its
argument validator rejects the empty object. -/
theorem select_rows_empty_where_c2_counterexample :
    parseSelectRowsArgs [("table", JVal.jstr "users"), ("where", JVal.jobj [])] =
      .error (.validationError "Invalid parameter: where cannot be an empty object") :=
  rfl

def c2StateW : ApiState :=
  { pool := some { schemata := ["app_db"], tables := [], columns := [], now := "now" },
    session := some { host := "h", port := 3306, user := "u",
                      database := some "app_db", ssl := false } }

theorem empty_where_c2_witness :
    parseUpdateRowsArgs [("where", JVal.jobj []), ("table", JVal.jstr "users"),
        ("data", JVal.jobj [("a", JVal.jint 1)])] =
      .error (.validationError "Invalid parameter: where cannot be an empty object") ∧
    parseDeleteRowsArgs [("where", JVal.jobj []), ("table", JVal.jstr "users")] =
      .error (.validationError "Invalid parameter: where cannot be an empty object") ∧
    (∃ m, updateRows c2StateW
        { table := "users", data := [("a", JVal.jint 1)], whereArg := [] } =
      .error (.validationError m)) ∧
    (∃ m, deleteRows c2StateW { table := "users", whereArg := [] } =
      .error (.validationError m)) ∧
    (∃ m, parseSelectRowsArgs [("table", JVal.jstr "users"), ("where", JVal.jobj [])] =
      .error (.validationError m)) ∧
    selectRows c2StateW { table := "users", whereArg := some [] } =
      selectRows c2StateW { table := "users", whereArg := none } :=
  ⟨empty_where_c2_amended.1 _ rfl,
   empty_where_c2_amended.2.1 _ rfl,
   empty_where_c2_amended.2.2.1 c2StateW _
     { schemata := ["app_db"], tables := [], columns := [], now := "now" } rfl rfl,
   empty_where_c2_amended.2.2.2.1 c2StateW _
     { schemata := ["app_db"], tables := [], columns := [], now := "now" } rfl rfl,
   empty_where_c2_amended.2.2.2.2.1 _ rfl,
   empty_where_c2_amended.2.2.2.2.2 c2StateW _ rfl⟩
